/-
Verification of the download orchestration subsystem of the tikcord bot
against its design document.

The definitions below are a shallow embedding of the JavaScript sources:
  * src/services/downloadManager.js  (queue / scheduler / retry logic)
  * src/services/videoDownloader.js  (extraction strategies, verification,
    error normalisation) together with the persistence service appended to
    the same file
  * src/utils/memoryGuard.js         (memory pressure responses)
  * src/config/index.js              (configuration constants)

JavaScript strings are Lean Strings, JS numbers that the code only ever
uses as integers (byte sizes, timestamps, retry counts, delays) are Nat,
and the floating point progress percentages parsed from the extractor
output are modelled as rationals.  Fallible paths return Except.  Each
definition carries a comment pointing at the function it embeds.
-/
import Mathlib

set_option maxRecDepth 4000

namespace Tikcord

/-! ## String primitives

JavaScript String.prototype.toLowerCase and String.prototype.includes,
which downloadManager.isRetryableError uses for pattern matching. -/

/-- Model of JS toLowerCase: lowercase every character. -/
def lowerStr (s : String) : String := ⟨s.data.map Char.toLower⟩

/-- charsLead needle hay is true when needle is an initial segment of hay. -/
def charsLead : List Char → List Char → Bool
  | [], _ => true
  | _ :: _, [] => false
  | a :: as, b :: bs => a == b && charsLead as bs

/-- charsInfix needle hay is true when needle occurs contiguously in hay. -/
def charsInfix (needle : List Char) : List Char → Bool
  | [] => needle.isEmpty
  | b :: bs => charsLead needle (b :: bs) || charsInfix needle bs

/-- Model of JS hay.includes(needle). -/
def strIncludes (hay needle : String) : Bool := charsInfix needle.data hay.data

/-! ## Error values and classification

downloadManager.js lines 283-322 (isRetryableError) and
videoDownloader.js lines 1484-1493 (normalizeApiError). -/

/-- Model of the JS Error values the scheduler inspects: an optional
isPermanent flag set by the executor, the message, and the rawOutput
attached on yt-dlp failures.  A JS field that is undefined is modelled
as the empty string, so that the toLowerCase-or-empty-string fallback in
the source collapses to lowerStr. -/
structure JsError where
  isPermanent : Bool
  message : String
  rawOutput : String
deriving Repr, DecidableEq

/-- The nonRetryablePatterns array of downloadManager.isRetryableError. -/
def nonRetryablePatterns : List String :=
  [ "unsupported url"
  , "private video"
  , "video unavailable"
  , "video is unavailable"
  , "not available"
  , "not found"
  , "404"
  , "403"
  , "410"
  , "removed"
  , "no longer available"
  , "forbidden"
  , "suspended"
  , "copyright"
  , "account is private"
  , "user not found"
  , "invalid url" ]

/-- Embedding of downloadManager.isRetryableError.  A missing error (JS
falsy argument) is retryable; an error flagged isPermanent is not; an
error with neither message nor raw output is retryable; otherwise the
error is retryable exactly when no non-retryable pattern occurs in the
lowercased message or raw output. -/
def isRetryableError : Option JsError → Bool
  | none => true
  | some e =>
    if e.isPermanent then false
    else
      let sources := [lowerStr e.message, lowerStr e.rawOutput].filter (fun s => s != "")
      if sources.isEmpty then true
      else ! nonRetryablePatterns.any (fun p => sources.any (fun s => strIncludes s p))

/-- The permanent HTTP status list of videoDownloader.normalizeApiError. -/
def permanentApiStatuses : List Nat := [400, 401, 403, 404, 410, 451]

/-- Embedding of videoDownloader.normalizeApiError.  status none models an
error without a response status (JS undefined, falsy); the s != 0 conjunct
is the JS truthiness test on the status. -/
def normalizeApiError (status : Option Nat) (msg : String) (label : String) : JsError :=
  let statusText : List String :=
    match status with
    | some s => if s != 0 then ["status " ++ toString s] else []
    | none => []
  { isPermanent :=
      match status with
      | some s => (s != 0) && permanentApiStatuses.contains s
      | none => false
  , message := String.intercalate " - " (([label] ++ statusText ++ [msg]).filter (fun s => s != ""))
  , rawOutput := "" }

/-! ## Destination file verification per strategy

videoDownloader.js: downloadVideo lines 320-335, downloadTikTokViaAPI
lines 563-571, downloadInstagramViaAPI lines 1287-1302. -/

/-- Observation of the destination file when a strategy finishes: whether
the path exists and the size statSync would report. -/
structure FileCheck where
  fileExists : Bool
  size : Nat
deriving Repr, DecidableEq

/-- Embedding of the verification tail of downloadVideo (primary yt-dlp
strategy): after the process exits 0 the code throws unless the file
exists and has non-zero size, and only then reports success. -/
def verifyPrimary (f : FileCheck) : Except String Nat :=
  if !f.fileExists then .error "Downloaded file not found"
  else if f.size == 0 then .error "Downloaded file is empty"
  else .ok f.size

/-- Embedding of the verification tail of downloadTikTokViaAPI: same two
checks with the API failure messages. -/
def verifyTikTokApi (f : FileCheck) : Except String Nat :=
  if !f.fileExists then .error "API download failed - file not created"
  else if f.size == 0 then .error "API download failed - empty file"
  else .ok f.size

/-- Embedding of the success tail of downloadInstagramViaAPI: the code
calls statSync (which throws ENOENT when the file is missing) and then
returns success unconditionally; the size is never compared to zero. -/
def verifyInstagramApi (f : FileCheck) : Except String Nat :=
  if !f.fileExists then .error "ENOENT: no such file or directory"
  else .ok f.size

/-! ## Scheduler configuration and state

src/config/index.js CONFIG.DOWNLOAD and the DownloadManager class fields
(downloadManager.js constructor lines 8-21).  Tags are generated by
generateTag from the clock plus a random suffix; the model draws them
from a counter, which preserves the only property the code relies on,
their uniqueness. -/

/-- The CONFIG.DOWNLOAD values the scheduler reads. -/
structure Config where
  maxConcurrent : Nat
  maxRetries : Nat
  maxQueueSize : Nat
deriving Repr, DecidableEq

/-- Defaults from src/config/index.js (MAX_CONCURRENT 5, MAX_RETRIES 7,
MAX_QUEUE_SIZE 50). -/
def defaultConfig : Config := { maxConcurrent := 5, maxRetries := 7, maxQueueSize := 50 }

/-- A queue item as built by addToQueue: the generated tag, the request
data, the admission timestamp, the lifecycle status string, the retry
counter and whether a Discord message reference is attached (startDownload
fails the job without one). -/
structure QueueItem where
  tag : Nat
  url : String
  platform : String
  addedAt : Nat
  status : String
  retryCount : Nat
  hasMessage : Bool
deriving Repr, DecidableEq

/-- The caller-supplied part of a download request. -/
structure DownloadInfo where
  url : String
  platform : String
  now : Nat
  hasMessage : Bool
deriving Repr, DecidableEq

/-- A retry scheduled by handleDownloadError: the item (with incremented
retryCount) that the setTimeout callback will unshift onto the queue, and
the delay passed to setTimeout. -/
structure ScheduledRetry where
  item : QueueItem
  delayMs : Nat
deriving Repr, DecidableEq

/-- Names of persistence calls, recorded so that theorems can speak about
which store writes a transition performs. -/
structure PersistCall where
  op : String
  tag : Nat
deriving Repr, DecidableEq

/-- Names of emitted lifecycle events, recorded for the same purpose. -/
structure EventRecord where
  name : String
  tag : Nat
deriving Repr, DecidableEq

/-- The DownloadManager state: the queue array, the activeDownloads map
(modelled as a tag-keyed association list), the pending setTimeout retry
callbacks, the terminal rows of the store, and logs of persistence calls
and emitted events. -/
structure MgrState where
  queue : List QueueItem
  active : List QueueItem
  pendingRetry : List ScheduledRetry
  storeFailed : List Nat
  storeCompleted : List Nat
  persistLog : List PersistCall
  eventLog : List EventRecord
  nextTag : Nat
deriving Repr, DecidableEq

/-- The state the DownloadManager constructor builds before bootstrap. -/
def initialState : MgrState :=
  { queue := [], active := [], pendingRetry := [], storeFailed := []
  , storeCompleted := [], persistLog := [], eventLog := [], nextTag := 0 }

/-- Tags currently in the queue. -/
def queueTags (s : MgrState) : List Nat := s.queue.map (·.tag)

/-- Tags currently in the activeDownloads map. -/
def activeTags (s : MgrState) : List Nat := s.active.map (·.tag)

/-! ## Admission: downloadManager.addToQueue (lines 102-131) -/

/-- Embedding of addToQueue.  When the queue is full it returns false
before any tag is generated, any state is mutated, any row is persisted
or any event is emitted.  Otherwise it builds the item with status queued
and retryCount 0, pushes it at the queue tail, persists it, emits
queue:added and reports true.  (The trailing processQueue call drains
asynchronously on the JS microtask queue and is modelled as the separate
processQueue transition.) -/
def addToQueue (cfg : Config) (s : MgrState) (info : DownloadInfo) : Bool × MgrState :=
  if cfg.maxQueueSize ≤ s.queue.length then (false, s)
  else
    let item : QueueItem :=
      { tag := s.nextTag, url := info.url, platform := info.platform
      , addedAt := info.now, status := "queued", retryCount := 0
      , hasMessage := info.hasMessage }
    (true,
      { s with
        queue := s.queue ++ [item]
        nextTag := s.nextTag + 1
        persistLog := s.persistLog ++ [{ op := "saveQueueItem", tag := item.tag }]
        eventLog := s.eventLog ++ [{ name := "queue:added", tag := item.tag }] })

/-! ## Scheduling pass: processQueue and startDownload (lines 136-208) -/

/-- Map.set on the activeDownloads association list: replace the entry
with the same tag when present, append otherwise. -/
def activeSet (l : List QueueItem) (it : QueueItem) : List QueueItem :=
  if l.any (fun a => a.tag == it.tag) then
    l.map (fun a => if a.tag == it.tag then it else a)
  else l ++ [it]

/-- Embedding of startDownload for one item already removed from the
queue.  Without a message reference the job is marked failed in the store
and dropped (lines 165-177); otherwise it is put into activeDownloads
with status downloading, the row is marked active and the start events
fire.  (The re-entrant processQueue call inside the missing-message
branch is a no-op while the draining pass holds isProcessing.) -/
def startDownload (s : MgrState) (item : QueueItem) : MgrState :=
  if !item.hasMessage then
    { s with
      storeFailed := s.storeFailed ++ [item.tag]
      persistLog := s.persistLog ++ [{ op := "markFailed", tag := item.tag }] }
  else
    { s with
      active := activeSet s.active { item with status := "downloading" }
      persistLog := s.persistLog ++ [{ op := "markAsActive", tag := item.tag }]
      eventLog := s.eventLog ++
        [{ name := "download:start", tag := item.tag }
        , { name := "download:process", tag := item.tag }] }

/-- The while loop of processQueue: while the queue is non-empty and the
activeDownloads map is below the concurrency limit, shift the head and
start it.  Structured as fuel recursion; each iteration consumes one
queue element, so the queue length is enough fuel. -/
def drainLoop (cfg : Config) : Nat → MgrState → MgrState
  | 0, s => s
  | fuel + 1, s =>
    match s.queue with
    | [] => s
    | item :: rest =>
      if s.active.length < cfg.maxConcurrent then
        drainLoop cfg fuel (startDownload { s with queue := rest } item)
      else s

/-- Embedding of processQueue: a single-flight draining pass (concurrent
triggers coalesce through the isProcessing flag, so one call of this
function models one full drain). -/
def processQueue (cfg : Config) (s : MgrState) : MgrState :=
  drainLoop cfg s.queue.length s

/-! ## Completion: downloadManager.completeDownload (lines 215-234) -/

/-- Embedding of completeDownload: ignore unknown tags, otherwise persist
the completed row, delete the tag from activeDownloads and emit
download:complete. -/
def completeDownload (s : MgrState) (tag : Nat) : MgrState :=
  if s.active.any (fun a => a.tag == tag) then
    { s with
      active := s.active.filter (fun a => a.tag != tag)
      storeCompleted := s.storeCompleted ++ [tag]
      persistLog := s.persistLog ++ [{ op := "markCompleted", tag := tag }]
      eventLog := s.eventLog ++ [{ name := "download:complete", tag := tag }] }
  else s

/-! ## Failure handling: downloadManager.handleDownloadError (lines 241-276) -/

/-- The backoff delay passed to setTimeout on the retry branch:
Math.min(1000 * Math.pow(2, retryCount), 10000), evaluated on the value
of retryCount destructured from the item before the increment. -/
def retryDelayMs (retryCount : Nat) : Nat := min (1000 * 2 ^ retryCount) 10000

/-- Embedding of handleDownloadError.  On the retry branch (retryCount
below MAX_RETRIES and a retryable error) the item has its retryCount
incremented, the new count is persisted, and a re-insertion at the queue
head is scheduled after retryDelayMs of the old count; the entry in
activeDownloads is left untouched (mirroring the source, which deletes
from activeDownloads only on the final-failure branch).  On the final
branch the row is marked failed, the tag is deleted from activeDownloads
and download:error is emitted. -/
def handleDownloadError (cfg : Config) (s : MgrState) (item : QueueItem)
    (err : Option JsError) : MgrState :=
  if item.retryCount < cfg.maxRetries ∧ isRetryableError err then
    let retried := { item with retryCount := item.retryCount + 1 }
    { s with
      pendingRetry := s.pendingRetry ++ [{ item := retried, delayMs := retryDelayMs item.retryCount }]
      persistLog := s.persistLog ++ [{ op := "updateRetryCount", tag := item.tag }] }
  else
    { s with
      active := s.active.filter (fun a => a.tag != item.tag)
      storeFailed := s.storeFailed ++ [item.tag]
      persistLog := s.persistLog ++ [{ op := "markFailed", tag := item.tag }]
      eventLog := s.eventLog ++ [{ name := "download:error", tag := item.tag }] }

/-- Firing of the setTimeout callback scheduled by the retry branch: the
item is unshifted onto the queue head (queue.unshift) and a scheduling
pass is triggered; the model fires the oldest pending callback. -/
def fireRetry (cfg : Config) (s : MgrState) : MgrState :=
  match s.pendingRetry with
  | [] => s
  | r :: rest => processQueue cfg { s with pendingRetry := rest, queue := r.item :: s.queue }

/-! ## Queue clearing: downloadManager.clearQueue (lines 352-357) -/

/-- Embedding of clearQueue: replaces the queue array by an empty one and
returns the number of dropped items; nothing else is touched. -/
def clearQueue (s : MgrState) : Nat × MgrState :=
  (s.queue.length, { s with queue := [] })

/-! ## Persistence rows and startup recovery

persistenceService.loadPendingItems (appended to videoDownloader.js,
lines 1643-1667) and downloadManager.bootstrapFromPersistence
(lines 35-64). -/

/-- A row of the downloads table, restricted to the columns recovery
reads. -/
structure Row where
  tag : Nat
  url : String
  platform : String
  status : String
  addedAt : Nat
  retries : Nat
deriving Repr, DecidableEq

/-- The WHERE clause of loadPendingItems: status IN (queued, downloading). -/
def pendingStatus (r : Row) : Bool := r.status == "queued" || r.status == "downloading"

/-- The ORDER BY added_at ASC comparison. -/
def rowOrder : Row → Row → Prop := fun a b => a.addedAt ≤ b.addedAt

instance : DecidableRel rowOrder := fun a b => Nat.decLe a.addedAt b.addedAt

instance : IsTotal Row rowOrder := ⟨fun a b => Nat.le_total a.addedAt b.addedAt⟩

instance : IsTrans Row rowOrder := ⟨fun _ _ _ => Nat.le_trans⟩

/-- The row-to-queue-item mapping of loadPendingItems: status is reset to
queued, the stored retry count is kept, and message is null (no Discord
message reference yet). -/
def rowToItem (r : Row) : QueueItem :=
  { tag := r.tag, url := r.url, platform := r.platform, addedAt := r.addedAt
  , status := "queued", retryCount := r.retries, hasMessage := false }

/-- Embedding of loadPendingItems: select the non-terminal rows, order by
added_at ascending, map to queue items.  Insertion sort models ORDER BY. -/
def loadPendingItems (db : List Row) : List QueueItem :=
  (List.insertionSort rowOrder (db.filter pendingStatus)).map rowToItem

/-- Embedding of bootstrapFromPersistence restricted to the queue it
builds: the loaded items are filtered by retryCount < MAX_RETRIES (the
rest are dropped with a log line) and pushed onto the empty queue of the
freshly constructed manager. -/
def bootstrapQueue (cfg : Config) (db : List Row) : List QueueItem :=
  (loadPendingItems db).filter (fun it => it.retryCount < cfg.maxRetries)

/-! ## Temp directory and the memory guard

videoDownloader.cleanupOldFiles (lines 1330-1365) and
memoryGuard.preventiveCleanup / criticalCleanup (lines 117-145). -/

/-- A temp file as cleanupOldFiles sees it: a name and a modification
time in milliseconds. -/
structure TempFile where
  name : String
  mtime : Nat
deriving Repr, DecidableEq

/-- Embedding of videoDownloader.cleanupOldFiles with the age threshold
already converted to milliseconds (the source takes hours and multiplies
by 3600000): a file is deleted exactly when now - mtime > maxAgeMs, so
the result keeps the files with age at most maxAgeMs.  Nat subtraction
matches the JS comparison: a file with mtime in the future has negative
age in JS and age 0 here, and is kept either way. -/
def cleanupOldFiles (maxAgeMs : Nat) (now : Nat) (files : List TempFile) : List TempFile :=
  files.filter (fun f => !(maxAgeMs < now - f.mtime))

/-- Embedding of memoryGuard.preventiveCleanup (warning level): deletes
temp files older than 10 minutes (cleanupOldFiles(10 / 60) hours, i.e.
600000 ms) and does not touch the manager state. -/
def preventiveCleanup (now : Nat) (st : MgrState × List TempFile) : MgrState × List TempFile :=
  (st.1, cleanupOldFiles 600000 now st.2)

/-- Embedding of memoryGuard.criticalCleanup (critical level): clears the
entire download queue through downloadManager.clearQueue and runs
cleanupOldFiles(0), i.e. deletes the files of strictly positive age. -/
def criticalCleanup (now : Nat) (st : MgrState × List TempFile) : MgrState × List TempFile :=
  ((clearQueue st.1).2, cleanupOldFiles 0 now st.2)

/-! ## Failure-path file cleanup

downloadVideo catch block (videoDownloader.js lines 348-387) and the
downloadTikTokViaAPI control flow (lines 514-595). -/

/-- The shared temp directory as a list of file names with sizes. -/
abbrev FileSys := List (String × Nat)

/-- Creation of the destination through createWriteStream followed by the
streamed bytes: truncates any previous file of that name. -/
def writeStream (fs : FileSys) (name : String) (bytes : Nat) : FileSys :=
  (name, bytes) :: fs.filter (fun f => f.1 != name)

/-- The observable outcomes of one downloadTikTokViaAPI run: the tikwm
response is rejected before any file is touched, or the write stream
errors after some bytes, or it finishes with some total. -/
inductive TikTokRun
  | apiRejected
  | streamErrored (bytesWritten : Nat)
  | streamFinished (bytesWritten : Nat)
deriving Repr, DecidableEq

/-- Embedding of downloadTikTokViaAPI as a function of the run outcome:
on a rejected API response it throws before the write stream is created;
once the stream exists the file stays on disk on every path, because the
catch block (lines 590-594) only normalises and rethrows the error and
contains no unlink.  The verification tail turns a finished but empty
file into a failure, still leaving the file. -/
def downloadTikTokViaAPIRun (run : TikTokRun) (outPath : String) (fs : FileSys) :
    Except JsError Nat × FileSys :=
  match run with
  | .apiRejected =>
      (.error (normalizeApiError none "TikTok API returned invalid response"
        "TikTok API fallback failed"), fs)
  | .streamErrored n =>
      (.error (normalizeApiError none "stream error" "TikTok API fallback failed"),
        writeStream fs outPath n)
  | .streamFinished n =>
      let fs1 := writeStream fs outPath n
      if n == 0 then
        (.error (normalizeApiError none "API download failed - empty file"
          "TikTok API fallback failed"), fs1)
      else (.ok n, fs1)

/-- Embedding of the cleanup step of the downloadVideo catch block (lines
365-372): when an output path had been chosen and the file exists, it is
unlinked before the error is rethrown or a fallback is tried. -/
def primaryFailureCleanup (outPath : Option String) (fs : FileSys) : FileSys :=
  match outPath with
  | none => fs
  | some p => if fs.any (fun f => f.1 == p) then fs.filter (fun f => f.1 != p) else fs

/-! ## Progress forwarding

downloadVideo stdout handler (videoDownloader.js lines 242-256) and the
completion call onProgress(100) after verification (line 334). -/

/-- Embedding of the stdout progress handler: lastProgress starts at 0, a
parsed percentage is forwarded only when strictly above lastProgress, and
the forwarded value is clamped by Math.min(progress, 99). -/
def forwardProgress : List ℚ → ℚ → List ℚ
  | [], _ => []
  | p :: rest, last =>
    if last < p then min p 99 :: forwardProgress rest p
    else forwardProgress rest last

/-- The full sequence of onProgress calls of one primary attempt: the
clamped strictly-rising raw values, then 100 exactly when the downloaded
file passed the existence and non-zero-size verification. -/
def attemptProgress (raw : List ℚ) (verified : Bool) : List ℚ :=
  forwardProgress raw 0 ++ (if verified then [100] else [])

/-! ## The scheduler transition system

One step is one of the entry points through which downloadManager state
changes at runtime: an admission, a scheduling pass, a completion, an
error report from the executor (bot.js calls handleDownloadError with the
item that was started, hence the membership side condition), the firing
of a scheduled retry, or a queue clear by a resource guard. -/

inductive Step (cfg : Config) : MgrState → MgrState → Prop
  | enqueue (s : MgrState) (info : DownloadInfo) : Step cfg s (addToQueue cfg s info).2
  | sched (s : MgrState) : Step cfg s (processQueue cfg s)
  | complete (s : MgrState) (tag : Nat) : Step cfg s (completeDownload s tag)
  | fail (s : MgrState) (item : QueueItem) (err : Option JsError)
      (hmem : item.tag ∈ activeTags s) : Step cfg s (handleDownloadError cfg s item err)
  | fire (s : MgrState) : Step cfg s (fireRetry cfg s)
  | clear (s : MgrState) : Step cfg s (clearQueue s).2

/-- Reachability under scheduler steps. -/
def Reachable (cfg : Config) : MgrState → MgrState → Prop :=
  Relation.ReflTransGen (Step cfg)

/-- The retry-count invariant: every job held by the manager, whether
waiting in the queue, executing, or sitting in a backoff window, has a
retry count at most MAX_RETRIES. -/
def RetryBound (cfg : Config) (s : MgrState) : Prop :=
  (∀ it ∈ s.queue, it.retryCount ≤ cfg.maxRetries)
  ∧ (∀ it ∈ s.active, it.retryCount ≤ cfg.maxRetries)
  ∧ (∀ r ∈ s.pendingRetry, r.item.retryCount ≤ cfg.maxRetries)

/-! ## Concrete inputs used by the theorems below -/

/-- A configuration with concurrency 1, as supported by MAX_CONCURRENT. -/
def cfg1 : Config := { maxConcurrent := 1, maxRetries := 7, maxQueueSize := 50 }

/-- A configuration with queue capacity 2, for the admission scenario. -/
def cfg2 : Config := { maxConcurrent := 5, maxRetries := 7, maxQueueSize := 2 }

/-- A download request carrying a message reference. -/
def c1Info : DownloadInfo :=
  { url := "https://vt.tiktok.com/x", platform := "tiktok", now := 1000, hasMessage := true }

/-- The queue item addToQueue builds from c1Info in the initial state
(tag 0), which is also the item the download:process event carries to the
executor and back into handleDownloadError. -/
def c1Item : QueueItem :=
  { tag := 0, url := "https://vt.tiktok.com/x", platform := "tiktok", addedAt := 1000
  , status := "queued", retryCount := 0, hasMessage := true }

/-- A transient executor error: a plain timeout message. -/
def c1Err : JsError := { isPermanent := false, message := "Download timed out", rawOutput := "" }

/-- The failing trace for the Queue-versus-Active-Set invariant: enqueue one
job, run a scheduling pass (the job becomes active), report a transient
failure, let the backoff timer fire. -/
def c1State : MgrState :=
  fireRetry cfg1 (handleDownloadError cfg1
    (processQueue cfg1 (addToQueue cfg1 initialState c1Info).2) c1Item (some c1Err))

/-- A persisted row whose retry count equals the default maximum. -/
def c4Row : Row :=
  { tag := 1, url := "u", platform := "tiktok", status := "queued", addedAt := 10, retries := 7 }

/-- A persisted downloading row with no retries yet. -/
def c4FreshRow : Row :=
  { tag := 2, url := "v", platform := "instagram", status := "downloading", addedAt := 4, retries := 0 }

/-- An active item on its first attempt. -/
def c5Item : QueueItem :=
  { tag := 3, url := "u", platform := "tiktok", addedAt := 50
  , status := "downloading", retryCount := 0, hasMessage := true }

/-- A transient error used to drive the retry branch. -/
def c5Err : JsError := { isPermanent := false, message := "Download timed out", rawOutput := "" }

/-- An error carrying only a generic timeout message. -/
def c6TimeoutErr : JsError :=
  { isPermanent := false, message := "Download timed out after 600000 ms", rawOutput := "" }

/-- An error whose diagnostic text contains 404. -/
def c6NotFoundErr : JsError :=
  { isPermanent := false, message := "HTTP Error 404: Not Found", rawOutput := "" }

/-- An arbitrary item for instantiating scheduler statements. -/
def c6Item : QueueItem :=
  { tag := 4, url := "u", platform := "instagram", addedAt := 60
  , status := "downloading", retryCount := 2, hasMessage := true }

/-- An arbitrary admission request. -/
def c7Info : DownloadInfo :=
  { url := "https://www.instagram.com/reel/a", platform := "instagram", now := 5, hasMessage := true }

lemma retryBound_addToQueue (cfg : Config) (s : MgrState) (info : DownloadInfo)
    (hs : RetryBound cfg s) : RetryBound cfg (addToQueue cfg s info).2 := by
  obtain ⟨hq, ha, hp⟩ := hs
  unfold addToQueue
  split
  · exact ⟨hq, ha, hp⟩
  · refine ⟨?_, ha, hp⟩
    intro it hit
    rcases List.mem_append.1 hit with h | h
    · exact hq it h
    · rcases List.mem_singleton.1 h with rfl
      exact Nat.zero_le _

lemma retryBound_startDownload (cfg : Config) (s : MgrState) (item : QueueItem)
    (hs : RetryBound cfg s) (hit : item.retryCount ≤ cfg.maxRetries) :
    RetryBound cfg (startDownload s item) := by
  obtain ⟨hq, ha, hp⟩ := hs
  unfold startDownload
  split
  · exact ⟨hq, ha, hp⟩
  · refine ⟨hq, ?_, hp⟩
    intro a hmem
    unfold activeSet at hmem
    split at hmem
    · rcases List.mem_map.1 hmem with ⟨b, hb, rfl⟩
      split
      · exact hit
      · exact ha b hb
    · rcases List.mem_append.1 hmem with h | h
      · exact ha a h
      · rcases List.mem_singleton.1 h with rfl
        exact hit

lemma retryBound_drainLoop (cfg : Config) (fuel : Nat) :
    ∀ (s : MgrState), RetryBound cfg s → RetryBound cfg (drainLoop cfg fuel s) := by
  induction fuel with
  | zero => exact fun s hs => hs
  | succ n ih =>
    intro s hs
    obtain ⟨q, a, p, sf, sc, pl, el, nt⟩ := s
    rcases q with _ | ⟨item, rest⟩
    · exact hs
    · obtain ⟨hq, ha, hp⟩ := hs
      simp only [drainLoop]
      split
      · apply ih
        refine retryBound_startDownload cfg _ item ⟨?_, ha, hp⟩
          (hq item (List.mem_cons_self _ _))
        intro it h
        exact hq it (List.mem_cons_of_mem _ h)
      · exact ⟨hq, ha, hp⟩

lemma retryBound_processQueue (cfg : Config) (s : MgrState)
    (hs : RetryBound cfg s) : RetryBound cfg (processQueue cfg s) :=
  retryBound_drainLoop cfg s.queue.length s hs

lemma retryBound_completeDownload (cfg : Config) (s : MgrState) (tag : Nat)
    (hs : RetryBound cfg s) : RetryBound cfg (completeDownload s tag) := by
  obtain ⟨hq, ha, hp⟩ := hs
  unfold completeDownload
  split
  · exact ⟨hq, fun a hmem => ha a (List.mem_filter.1 hmem).1, hp⟩
  · exact ⟨hq, ha, hp⟩

lemma retryBound_handleDownloadError (cfg : Config) (s : MgrState) (item : QueueItem)
    (err : Option JsError) (hs : RetryBound cfg s) :
    RetryBound cfg (handleDownloadError cfg s item err) := by
  obtain ⟨hq, ha, hp⟩ := hs
  unfold handleDownloadError
  split
  · next hcond =>
    refine ⟨hq, ha, ?_⟩
    intro r hmem
    rcases List.mem_append.1 hmem with h | h
    · exact hp r h
    · rcases List.mem_singleton.1 h with rfl
      exact Nat.succ_le_of_lt hcond.1
  · exact ⟨hq, fun a hmem => ha a (List.mem_filter.1 hmem).1, hp⟩

lemma retryBound_fireRetry (cfg : Config) (s : MgrState)
    (hs : RetryBound cfg s) : RetryBound cfg (fireRetry cfg s) := by
  obtain ⟨hq, ha, hp⟩ := hs
  unfold fireRetry
  rcases hps : s.pendingRetry with _ | ⟨r, rest⟩
  · exact ⟨hq, ha, hp⟩
  · refine retryBound_processQueue cfg _ ⟨?_, ha, ?_⟩
    · intro it hmem
      rcases List.mem_cons.1 hmem with rfl | h
      · exact hp r (hps ▸ List.mem_cons_self _ _)
      · exact hq it h
    · intro x hmem
      exact hp x (hps ▸ List.mem_cons_of_mem _ hmem)

lemma retryBound_clearQueue (cfg : Config) (s : MgrState)
    (hs : RetryBound cfg s) : RetryBound cfg (clearQueue s).2 := by
  obtain ⟨_, ha, hp⟩ := hs
  exact ⟨fun it h => absurd h (List.not_mem_nil it), ha, hp⟩

lemma retryBound_step {cfg : Config} {s s' : MgrState}
    (hstep : Step cfg s s') (hs : RetryBound cfg s) : RetryBound cfg s' := by
  cases hstep with
  | enqueue info => exact retryBound_addToQueue cfg s info hs
  | sched => exact retryBound_processQueue cfg s hs
  | complete tag => exact retryBound_completeDownload cfg s tag hs
  | fail item err hmem => exact retryBound_handleDownloadError cfg s item err hs
  | fire => exact retryBound_fireRetry cfg s hs
  | clear => exact retryBound_clearQueue cfg s hs

lemma retryBound_reachable {cfg : Config} {s₀ s : MgrState}
    (h₀ : RetryBound cfg s₀) (hreach : Reachable cfg s₀ s) : RetryBound cfg s := by
  induction hreach with
  | refl => exact h₀
  | tail _ hstep ih => exact retryBound_step hstep ih

/-! ## Helper lemmas -/

lemma addToQueue_full (cfg : Config) (s : MgrState) (info : DownloadInfo)
    (h : cfg.maxQueueSize ≤ s.queue.length) : addToQueue cfg s info = (false, s) := by
  unfold addToQueue
  rw [if_pos h]

lemma addToQueue_length (cfg : Config) (s : MgrState) (info : DownloadInfo)
    (h : s.queue.length < cfg.maxQueueSize) :
    (addToQueue cfg s info).2.queue.length = s.queue.length + 1 := by
  unfold addToQueue
  rw [if_neg (Nat.not_le.mpr h)]
  simp

lemma strIncludes_ne_empty {s : String} (h : strIncludes s "404" = true) :
    (s != "") = true := by
  by_contra hne
  have hs : s = "" := by simpa [bne_iff_ne] using hne
  rw [hs] at h
  exact absurd h (by decide)

lemma notRetryable_of_404 (e : JsError)
    (h : strIncludes (lowerStr e.message) "404" = true
       ∨ strIncludes (lowerStr e.rawOutput) "404" = true) :
    isRetryableError (some e) = false := by
  unfold isRetryableError
  by_cases hp : e.isPermanent
  · simp [hp]
  · have hsome : ∃ s ∈ ([lowerStr e.message, lowerStr e.rawOutput].filter (fun s => s != "")),
        strIncludes s "404" = true := by
      rcases h with h | h
      · exact ⟨lowerStr e.message,
          List.mem_filter.2 ⟨List.mem_cons_self _ _, strIncludes_ne_empty h⟩, h⟩
      · exact ⟨lowerStr e.rawOutput,
          List.mem_filter.2 ⟨List.mem_cons_of_mem _ (List.mem_cons_self _ _),
            strIncludes_ne_empty h⟩, h⟩
    obtain ⟨s, hsmem, hsinc⟩ := hsome
    have hne : ([lowerStr e.message, lowerStr e.rawOutput].filter
        (fun s => s != "")).isEmpty = false := by
      cases hl : ([lowerStr e.message, lowerStr e.rawOutput].filter (fun s => s != "")) with
      | nil =>
        rw [hl] at hsmem
        exact absurd hsmem (List.not_mem_nil s)
      | cons a as => rfl
    have hany : nonRetryablePatterns.any
        (fun p => ([lowerStr e.message, lowerStr e.rawOutput].filter
          (fun s => s != "")).any (fun s => strIncludes s p)) = true :=
      List.any_eq_true.2 ⟨"404", by decide, List.any_eq_true.2 ⟨s, hsmem, hsinc⟩⟩
    show (if e.isPermanent = true then false
          else
            let sources := List.filter (fun s => s != "") [lowerStr e.message, lowerStr e.rawOutput]
            if sources.isEmpty = true then true
            else !nonRetryablePatterns.any fun p => sources.any fun s => strIncludes s p) = false
    rw [if_neg hp]
    simp only [hne, hany]
    rfl

lemma forwardProgress_le_99 (raw : List ℚ) :
    ∀ (last : ℚ), ∀ q ∈ forwardProgress raw last, q ≤ 99 := by
  induction raw with
  | nil =>
    intro last q hq
    exact absurd hq (List.not_mem_nil q)
  | cons p rest ih =>
    intro last q hq
    unfold forwardProgress at hq
    split at hq
    · rcases List.mem_cons.1 hq with rfl | h
      · exact min_le_right _ _
      · exact ih p q h
    · exact ih last q hq

lemma forwardProgress_lower (raw : List ℚ) :
    ∀ (last : ℚ), ∀ q ∈ forwardProgress raw last, min last 99 ≤ q := by
  induction raw with
  | nil =>
    intro last q hq
    exact absurd hq (List.not_mem_nil q)
  | cons p rest ih =>
    intro last q hq
    unfold forwardProgress at hq
    split at hq
    · next hlt =>
      rcases List.mem_cons.1 hq with rfl | h
      · exact min_le_min (le_of_lt hlt) le_rfl
      · exact le_trans (min_le_min (le_of_lt hlt) le_rfl) (ih p q h)
    · exact ih last q hq

lemma forwardProgress_chain (raw : List ℚ) :
    ∀ (last : ℚ), List.Chain' (· ≤ ·) (forwardProgress raw last) := by
  induction raw with
  | nil =>
    intro last
    exact List.chain'_nil
  | cons p rest ih =>
    intro last
    unfold forwardProgress
    split
    · rw [List.chain'_cons']
      refine ⟨?_, ih p⟩
      intro y hy
      exact forwardProgress_lower rest p y (List.mem_of_mem_head? hy)
    · exact ih last

/-! ## Claim theorems -/

/-- Claim C1: the design states that a job tag is never present in both
the Queue and the Active Set at the same time, including throughout the
backoff window and after re-insertion of a transiently failed job.  The
code violates this: the retry branch of handleDownloadError leaves the
failed job in activeDownloads while scheduling its re-insertion, so once
the backoff timer unshifts the item the same tag sits in both
collections (and at concurrency 1 the stale active entry blocks the
retried job from ever restarting).  This theorem evaluates the embedded
code on the failing trace: enqueue one job, run a scheduling pass, report a
transient failure, fire the backoff timer; tag 0 is then in both the
queue and the active map. -/
theorem c1_transient_retry_tag_in_queue_and_active :
    (queueTags c1State).contains 0 = true ∧ (activeTags c1State).contains 0 = true := by
  decide

/-- Claim C2, counterexample: it is false that every strategy declares
success only when the destination file exists and has non-zero size; the
Instagram API fallback declares success on an existing destination file
of size zero, because its success tail never compares the size to zero. -/
theorem c2_counterexample :
    ¬ (∀ f : FileCheck, (verifyInstagramApi f).isOk = true →
        f.fileExists = true ∧ f.size ≠ 0) := by
  intro h
  exact (h { fileExists := true, size := 0 } (by decide)).2 rfl

/-- Claim C2, amended: the primary yt-dlp strategy and the TikTok API
fallback declare success exactly when the destination file exists with
non-zero size; the Instagram API fallback declares success exactly when
the file exists, accepting an empty file as success. -/
theorem c2_amended :
    (∀ f : FileCheck, (verifyPrimary f).isOk = true ↔ (f.fileExists = true ∧ f.size ≠ 0))
  ∧ (∀ f : FileCheck, (verifyTikTokApi f).isOk = true ↔ (f.fileExists = true ∧ f.size ≠ 0))
  ∧ (∀ f : FileCheck, (verifyInstagramApi f).isOk = true ↔ f.fileExists = true) := by
  refine ⟨?_, ?_, ?_⟩ <;> intro f <;> obtain ⟨fe, n⟩ := f <;> cases fe
  · simp [verifyPrimary, Except.isOk, Except.toBool]
  · by_cases hn : n = 0 <;> simp [verifyPrimary, Except.isOk, Except.toBool, hn]
  · simp [verifyTikTokApi, Except.isOk, Except.toBool]
  · by_cases hn : n = 0 <;> simp [verifyTikTokApi, Except.isOk, Except.toBool, hn]
  · simp [verifyInstagramApi, Except.isOk, Except.toBool]
  · simp [verifyInstagramApi, Except.isOk, Except.toBool]

/-- Claim C2, witness: the primary verification accepts an existing file
of 7 bytes. -/
theorem c2_witness : (verifyPrimary { fileExists := true, size := 7 }).isOk = true :=
  (c2_amended.1 { fileExists := true, size := 7 }).mpr (by decide)

/-- Claim C3, counterexample: it is false that every failure path of the
extraction executor deletes a partially written destination file before
returning the error; when the tikwm write stream errors after 5 bytes the
TikTok API fallback rethrows through a catch block that contains no
unlink, leaving the 5-byte file on disk. -/
theorem c3_counterexample :
    ¬ (∀ (run : TikTokRun) (p : String) (fs : FileSys),
        (downloadTikTokViaAPIRun run p fs).1.isOk = false →
        ∀ f ∈ (downloadTikTokViaAPIRun run p fs).2, f.1 ≠ p) := by
  intro h
  exact h (.streamErrored 5) "out.mp4" [] (by decide) ("out.mp4", 5) (by decide) rfl

/-- Claim C3, amended: only the primary yt-dlp failure path deletes its
partially written destination before the error propagates (or a fallback
is tried); the TikTok API fallback failure paths leave the destination
file on disk whenever the stream was started (stream error, or finished
but empty), and touch nothing when the API response was rejected before
the stream existed. -/
theorem c3_amended :
    (∀ (p : String) (fs : FileSys), ∀ f ∈ primaryFailureCleanup (some p) fs, f.1 ≠ p)
  ∧ (∀ (p : String) (fs : FileSys) (n : Nat),
      (downloadTikTokViaAPIRun (.streamErrored n) p fs).1.isOk = false
      ∧ p ∈ ((downloadTikTokViaAPIRun (.streamErrored n) p fs).2.map Prod.fst))
  ∧ (∀ (p : String) (fs : FileSys),
      (downloadTikTokViaAPIRun (.streamFinished 0) p fs).1.isOk = false
      ∧ p ∈ ((downloadTikTokViaAPIRun (.streamFinished 0) p fs).2.map Prod.fst))
  ∧ (∀ (p : String) (fs : FileSys), (downloadTikTokViaAPIRun .apiRejected p fs).2 = fs) := by
  refine ⟨?_, ?_, ?_, ?_⟩
  · intro p fs f hmem
    have hmem2 : f ∈ (if fs.any (fun f => f.1 == p) then fs.filter (fun f => f.1 != p) else fs) :=
      hmem
    by_cases hany : fs.any (fun f => f.1 == p) = true
    · rw [if_pos hany] at hmem2
      have := (List.mem_filter.1 hmem2).2
      simpa [bne_iff_ne] using this
    · rw [if_neg hany] at hmem2
      intro heq
      exact hany (List.any_eq_true.2 ⟨f, hmem2, by simp [heq]⟩)
  · intro p fs n
    exact ⟨rfl, by simp [downloadTikTokViaAPIRun, writeStream]⟩
  · intro p fs
    exact ⟨rfl, by simp [downloadTikTokViaAPIRun, writeStream]⟩
  · intro p fs
    rfl

/-- Claim C3, witness: after the primary failure cleanup on a directory
holding an unrelated file, no file with the destination name remains. -/
theorem c3_witness : ("dst.mp4", (3 : Nat)).1 ≠ "other.mp4" :=
  c3_amended.1 "other.mp4" [("dst.mp4", 3)] ("dst.mp4", 3) (by decide)

/-- Claim C4, counterexample: it is false that a persisted pending row is
dropped exactly when its retryCount exceeds the configured maximum; the
bootstrap filter keeps only rows with retryCount strictly below the
maximum, so a queued row with retryCount equal to MAX_RETRIES (7), which
does not exceed it, is dropped and the rebuilt queue is empty. -/
theorem c4_counterexample :
    ¬ (∀ (cfg : Config) (db : List Row), ∀ r ∈ db, pendingStatus r = true →
        r.retries ≤ cfg.maxRetries →
        ∃ it ∈ bootstrapQueue cfg db, it.tag = r.tag) := by
  intro h
  obtain ⟨it, hit, -⟩ :=
    h defaultConfig [c4Row] c4Row (List.mem_singleton_self _) (by decide) (by decide)
  rw [show bootstrapQueue defaultConfig [c4Row] = [] from by decide] at hit
  exact absurd hit (List.not_mem_nil it)

/-- Claim C4, amended: recovery loads every persisted queued or
downloading row, drops a row exactly when its retryCount has reached or
exceeds the configured maximum (retryCount at least MAX_RETRIES), and the
rebuilt queue holds the surviving rows exactly once (a permutation, so
none lost and none duplicated) in ascending original addedAt order, all
re-queued with status queued. -/
theorem c4_amended (cfg : Config) (db : List Row) :
    (bootstrapQueue cfg db).Perm
      (((db.filter pendingStatus).filter (fun r => r.retries < cfg.maxRetries)).map rowToItem)
  ∧ (bootstrapQueue cfg db).Pairwise (fun a b => a.addedAt ≤ b.addedAt)
  ∧ (∀ it ∈ bootstrapQueue cfg db, it.status = "queued") := by
  refine ⟨?_, ?_, ?_⟩
  · show (((List.insertionSort rowOrder (db.filter pendingStatus)).map rowToItem).filter _).Perm _
    rw [List.filter_map]
    exact ((List.perm_insertionSort rowOrder (db.filter pendingStatus)).filter _).map rowToItem
  · show (((List.insertionSort rowOrder (db.filter pendingStatus)).map rowToItem).filter _).Pairwise _
    rw [List.filter_map]
    have hs : (List.insertionSort rowOrder (db.filter pendingStatus)).Pairwise rowOrder :=
      List.sorted_insertionSort rowOrder (db.filter pendingStatus)
    exact List.pairwise_map.2 (hs.filter _)
  · intro it hit
    obtain ⟨hmem, -⟩ := List.mem_filter.1 hit
    obtain ⟨r, -, rfl⟩ := List.mem_map.1 hmem
    rfl

/-- Claim C4, witness: a downloading row with no retries survives
recovery and is re-queued with status queued. -/
theorem c4_witness : (rowToItem c4FreshRow).status = "queued" :=
  (c4_amended defaultConfig [c4FreshRow]).2.2 (rowToItem c4FreshRow) (by decide)

/-- Claim C5, counterexample: it is false that the backoff delay is
computed with the incremented retryCount; for a first transient failure
(retryCount 0) the code schedules the re-insertion after
min(1000 * 2 ^ 0, 10000) = 1000 ms, not the 2000 ms that the
incremented count would give. -/
theorem c5_counterexample :
    ¬ (∀ (cfg : Config) (s : MgrState) (item : QueueItem) (err : Option JsError),
        item.retryCount < cfg.maxRetries → isRetryableError err = true →
        (handleDownloadError cfg s item err).pendingRetry =
          s.pendingRetry ++
            [{ item := { item with retryCount := item.retryCount + 1 }
             , delayMs := min (1000 * 2 ^ (item.retryCount + 1)) 10000 }]) := by
  intro h
  have := h defaultConfig initialState c5Item (some c5Err) (by decide) (by decide)
  exact absurd this (by decide)

/-- Claim C5, amended: on a transient failure below the retry cap the
scheduler increments retryCount, persists it through updateRetryCount,
and schedules a re-insertion at the queue head after
min(1000 * 2 ^ r, 10000) ms where r is the retryCount before the
increment; the firing callback unshifts the item at the queue head (not
the tail) and triggers a scheduling pass. -/
theorem c5_amended (cfg : Config) (s : MgrState) (item : QueueItem) (err : Option JsError)
    (h1 : item.retryCount < cfg.maxRetries) (h2 : isRetryableError err = true) :
    (handleDownloadError cfg s item err).pendingRetry =
      s.pendingRetry ++
        [{ item := { item with retryCount := item.retryCount + 1 }
         , delayMs := min (1000 * 2 ^ item.retryCount) 10000 }]
  ∧ (handleDownloadError cfg s item err).persistLog =
      s.persistLog ++ [{ op := "updateRetryCount", tag := item.tag }]
  ∧ (handleDownloadError cfg s item err).queue = s.queue
  ∧ (∀ (s' : MgrState) (r : ScheduledRetry) (rest : List ScheduledRetry),
      s'.pendingRetry = r :: rest →
      fireRetry cfg s' =
        processQueue cfg { s' with pendingRetry := rest, queue := r.item :: s'.queue }) := by
  have hcond : item.retryCount < cfg.maxRetries ∧ isRetryableError err = true := ⟨h1, h2⟩
  refine ⟨?_, ?_, ?_, ?_⟩
  · unfold handleDownloadError
    rw [if_pos hcond]
    rfl
  · unfold handleDownloadError
    rw [if_pos hcond]
  · unfold handleDownloadError
    rw [if_pos hcond]
  · intro s' r rest hps
    unfold fireRetry
    rw [hps]

/-- Claim C5, witness: the first transient failure of a fresh item
schedules its retry with retryCount 1 after 1000 ms. -/
theorem c5_witness :
    (handleDownloadError defaultConfig initialState c5Item (some c5Err)).pendingRetry =
      [{ item := { c5Item with retryCount := 1 }, delayMs := 1000 }] := by
  rw [(c5_amended defaultConfig initialState c5Item (some c5Err) (by decide) (by decide)).1]
  decide

/-- Claim C6: an extraction error whose diagnostic text (message or raw
output, lowercased) contains 404 is not retryable and handleDownloadError
schedules no retry for it; an error carrying only a generic timeout
message is retryable, and below the cap handleDownloadError schedules a
retry with incremented count; and normalizeApiError marks an HTTP
fallback response with status in the permanent set 400, 401, 403, 404,
410, 451 as permanent. -/
theorem c6_classification :
    (∀ (e : JsError) (cfg : Config) (s : MgrState) (item : QueueItem),
        (strIncludes (lowerStr e.message) "404" = true
          ∨ strIncludes (lowerStr e.rawOutput) "404" = true) →
        isRetryableError (some e) = false
        ∧ (handleDownloadError cfg s item (some e)).pendingRetry = s.pendingRetry)
  ∧ isRetryableError (some c6TimeoutErr) = true
  ∧ (∀ (cfg : Config) (s : MgrState) (item : QueueItem),
        item.retryCount < cfg.maxRetries →
        (handleDownloadError cfg s item (some c6TimeoutErr)).pendingRetry =
          s.pendingRetry ++
            [{ item := { item with retryCount := item.retryCount + 1 }
             , delayMs := retryDelayMs item.retryCount }])
  ∧ (∀ st ∈ permanentApiStatuses, ∀ (msg label : String),
        (normalizeApiError (some st) msg label).isPermanent = true) := by
  refine ⟨?_, by decide, ?_, ?_⟩
  · intro e cfg s item h
    have hret := notRetryable_of_404 e h
    refine ⟨hret, ?_⟩
    unfold handleDownloadError
    rw [if_neg ?_]
    intro hc
    rw [hret] at hc
    exact absurd hc.2 (by decide)
  · intro cfg s item h
    unfold handleDownloadError
    rw [if_pos ⟨h, by decide⟩]
  · intro st hst msg label
    fin_cases hst <;> rfl

/-- Claim C6, witness: an HTTP Error 404 message is classified
non-retryable. -/
theorem c6_witness : isRetryableError (some c6NotFoundErr) = false :=
  (c6_classification.1 c6NotFoundErr defaultConfig initialState c6Item
    (Or.inl (by decide))).1

/-- Claim C7: admission on a full queue returns false and changes nothing
(no queue mutation, no tag counter advance, no persistence write, no
event); and with queue capacity 2, three back-to-back admissions with no
completions in between leave the queue at length 2 with the third
admission rejected. -/
theorem c7_admission :
    (∀ (cfg : Config) (s : MgrState) (info : DownloadInfo),
        cfg.maxQueueSize ≤ s.queue.length → addToQueue cfg s info = (false, s))
  ∧ (∀ (i1 i2 i3 : DownloadInfo),
      (addToQueue cfg2 (addToQueue cfg2 (addToQueue cfg2 initialState i1).2 i2).2 i3).1 = false
      ∧ (addToQueue cfg2 (addToQueue cfg2 (addToQueue cfg2 initialState i1).2 i2).2 i3).2.queue.length = 2) := by
  refine ⟨fun cfg s info h => addToQueue_full cfg s info h, ?_⟩
  intro i1 i2 i3
  have l1 : (addToQueue cfg2 initialState i1).2.queue.length = 1 := by
    rw [addToQueue_length cfg2 initialState i1 (by decide)]
    rfl
  have l2 : (addToQueue cfg2 (addToQueue cfg2 initialState i1).2 i2).2.queue.length = 2 := by
    rw [addToQueue_length cfg2 _ i2 (by rw [l1]; decide), l1]
  have h3 := addToQueue_full cfg2
    (addToQueue cfg2 (addToQueue cfg2 initialState i1).2 i2).2 i3 (by rw [l2]; decide)
  rw [h3]
  exact ⟨rfl, l2⟩

/-- Claim C7, witness: with capacity 0 the very first admission is
rejected and the state is returned unchanged. -/
theorem c7_witness :
    addToQueue { maxConcurrent := 5, maxRetries := 7, maxQueueSize := 0 } initialState c7Info
      = (false, initialState) :=
  c7_admission.1 { maxConcurrent := 5, maxRetries := 7, maxQueueSize := 0 }
    initialState c7Info (by decide)

/-- Claim C8: an admitted job starts with retryCount 0; every state
reachable from a state satisfying the retry bound (in particular the
fresh empty manager state) keeps every held job at retryCount at most
MAX_RETRIES; and a job whose retryCount has reached the maximum is never
re-queued by handleDownloadError: no retry is scheduled, the queue is
untouched, the row is marked failed and the tag leaves the active set. -/
theorem c8_retry_bound :
    (∀ (cfg : Config) (s : MgrState) (info : DownloadInfo),
        (addToQueue cfg s info).1 = true →
        ∃ it : QueueItem, (addToQueue cfg s info).2.queue = s.queue ++ [it] ∧ it.retryCount = 0)
  ∧ (∀ (cfg : Config) (s₀ s : MgrState),
        RetryBound cfg s₀ → Reachable cfg s₀ s → RetryBound cfg s)
  ∧ (∀ (cfg : Config) (s : MgrState) (item : QueueItem) (err : Option JsError),
        cfg.maxRetries ≤ item.retryCount →
        (handleDownloadError cfg s item err).pendingRetry = s.pendingRetry
        ∧ (handleDownloadError cfg s item err).queue = s.queue
        ∧ item.tag ∈ (handleDownloadError cfg s item err).storeFailed
        ∧ item.tag ∉ activeTags (handleDownloadError cfg s item err)) := by
  refine ⟨?_, fun cfg s₀ s h₀ hr => retryBound_reachable h₀ hr, ?_⟩
  · intro cfg s info h
    unfold addToQueue at h ⊢
    by_cases hc : cfg.maxQueueSize ≤ s.queue.length
    · rw [if_pos hc] at h
      simp at h
    · rw [if_neg hc]
      exact ⟨{ tag := s.nextTag, url := info.url, platform := info.platform
             , addedAt := info.now, status := "queued", retryCount := 0
             , hasMessage := info.hasMessage }, rfl, rfl⟩
  · intro cfg s item err hle
    have hneg : ¬ (item.retryCount < cfg.maxRetries ∧ isRetryableError err = true) :=
      fun hc => absurd hc.1 (Nat.not_lt.mpr hle)
    unfold handleDownloadError
    rw [if_neg hneg]
    refine ⟨rfl, rfl, List.mem_append.2 (Or.inr (List.mem_singleton.2 rfl)), ?_⟩
    intro hmem
    obtain ⟨a, ha, htag⟩ := List.mem_map.1 hmem
    have hbne := (List.mem_filter.1 ha).2
    rw [htag] at hbne
    simp at hbne

/-- Claim C8, witness: the empty manager state satisfies the retry bound
and so does everything reachable from it by zero steps. -/
theorem c8_witness : RetryBound defaultConfig initialState :=
  c8_retry_bound.2.1 defaultConfig initialState initialState
    ⟨fun it h => absurd h (List.not_mem_nil it)
    , fun it h => absurd h (List.not_mem_nil it)
    , fun r h => absurd h (List.not_mem_nil r)⟩
    Relation.ReflTransGen.refl

/-- Claim C9, counterexample: it is false that the values forwarded to
onProgress within one attempt are strictly increasing; for raw parsed
percentages 99 then 100 both are clamped by min(progress, 99), so 99 is
forwarded twice. -/
theorem c9_counterexample :
    ¬ (∀ (raw : List ℚ) (verified : Bool),
        List.Chain' (· < ·) (attemptProgress raw verified)) := by
  intro h
  have h2 := h [99, 100] true
  rw [show attemptProgress [(99 : ℚ), 100] true = [99, 99, 100] from by decide] at h2
  rw [List.chain'_cons] at h2
  exact absurd h2.1 (lt_irrefl _)

/-- Claim C9, amended: the forwarded progress sequence is non-decreasing
(the raw values are forwarded only when strictly above the previous
maximum, but the clamp to 99 can repeat the value 99), every value
forwarded before explicit completion is at most 99, and 100 is forwarded
exactly on the verified-completion path. -/
theorem c9_amended (raw : List ℚ) (verified : Bool) :
    List.Chain' (· ≤ ·) (attemptProgress raw verified)
  ∧ (∀ q ∈ forwardProgress raw 0, q ≤ 99)
  ∧ ((100 : ℚ) ∈ attemptProgress raw verified → verified = true) := by
  refine ⟨?_, forwardProgress_le_99 raw 0, ?_⟩
  · unfold attemptProgress
    rw [List.chain'_append]
    refine ⟨forwardProgress_chain raw 0, ?_, ?_⟩
    · cases verified <;> simp
    · intro x hx y hy
      have hx99 : x ≤ 99 :=
        forwardProgress_le_99 raw 0 x (List.mem_of_getLast?_eq_some hx)
      cases verified
      · simp at hy
      · simp at hy
        subst hy
        linarith
  · intro hmem
    cases verified
    · exfalso
      unfold attemptProgress at hmem
      simp at hmem
      have := forwardProgress_le_99 raw 0 100 hmem
      norm_num at this
    · rfl

/-- Claim C9, witness: a single mid-attempt value followed by verified
completion yields a non-decreasing forwarded sequence. -/
theorem c9_witness : List.Chain' (· ≤ ·) (attemptProgress [50] true) :=
  (c9_amended [50] true).1

/-- Claim C10, counterexample: it is false that the critical-level
response deletes all temp files; cleanupOldFiles(0) deletes only files of
age strictly greater than zero, so a file whose mtime equals the cleanup
instant survives. -/
theorem c10_counterexample :
    ¬ (∀ (now : Nat) (st : MgrState × List TempFile), (criticalCleanup now st).2 = []) := by
  intro h
  have := h 100 (initialState, [{ name := "clip.mp4", mtime := 100 }])
  exact absurd this (by decide)

/-- Claim C10, amended: the critical-level response clears the entire
queue, leaves the active set and the pending backoff retries unchanged,
and deletes exactly the temp files of strictly positive age (all files
whose mtime is strictly before the cleanup instant); the warning-level
response mutates no manager state at all and deletes exactly the temp
files older than 10 minutes (age above 600000 ms). -/
theorem c10_amended (now : Nat) (st : MgrState × List TempFile) :
    (criticalCleanup now st).1.queue = []
  ∧ (criticalCleanup now st).1.active = st.1.active
  ∧ (criticalCleanup now st).1.pendingRetry = st.1.pendingRetry
  ∧ (criticalCleanup now st).2 = st.2.filter (fun f => !(0 < now - f.mtime))
  ∧ (preventiveCleanup now st).1 = st.1
  ∧ (preventiveCleanup now st).2 = st.2.filter (fun f => !(600000 < now - f.mtime)) :=
  ⟨rfl, rfl, rfl, rfl, rfl, rfl⟩

end Tikcord
